import Mathlib

/-!
Verification of the mileage-prediction / service-reminder core of the
AutoShop CRM backend (`app/services/mileage.py`, `app/services/scheduler.py`,
`app/config.py`, `app/models/__init__.py`).

Modelling conventions of the shallow embedding:
* `datetime` values are integer Unix timestamps in seconds; `timedelta.days`
  becomes floor division by 86400 (`Int.fdiv`).
* each SQLAlchemy table is a Lean list of records; `query(...).filter(...)`
  becomes `List.filter`, `.first()` becomes `List.find?`, `ORDER BY created_at`
  becomes a stable insertion sort on the `createdAt` field, and autoincrement
  ids are drawn from a `nextReminderId` counter.
* Python float arithmetic on the average daily rate is modelled exactly over
  `ℚ`; Python `int(...)` on a float is truncation toward zero (`Int.tdiv` of
  numerator by denominator), Python `%` is `Int.fmod` (sign of the divisor).
* code that can raise (`ZeroDivisionError` on `%`, `IndexError` on `[0]`)
  returns `Except String`; the Twilio notification sink is an abstract
  parameter that may report failure (`false`) or raise (`.error`).
* mutating operations thread the database state explicitly; the sweep
  returns its partial state together with an optional uncaught exception,
  mirroring the fact that committed work survives a raised exception.
-/

namespace AutoShop

/-- Configuration knobs from `app/config.py` (`Settings`). -/
structure Settings where
  MIN_VISITS_FOR_PREDICTION : Nat
  SERVICE_REMINDER_DAYS_AHEAD : Int
  deriving DecidableEq

/-- The default configuration object `settings` from `app/config.py`. -/
def defaultSettings : Settings :=
  { MIN_VISITS_FOR_PREDICTION := 2, SERVICE_REMINDER_DAYS_AHEAD := 14 }

/-- Row of the `shops` table (the fields the reminder sweep reads). -/
structure Shop where
  id : Nat
  isActive : Bool
  smsEnabled : Bool
  deriving DecidableEq

/-- Row of the `cars` table (the fields the mileage service reads/writes). -/
structure Car where
  id : Nat
  shopId : Nat
  ownerId : Nat
  currentMileage : Int
  serviceIntervalKm : Int
  updatedAt : Int
  deriving DecidableEq

/-- Row of the `work_orders` table (the fields the mileage service reads). -/
structure WorkOrder where
  carId : Nat
  status : String
  mileageAtIntake : Option Int
  createdAt : Int
  deriving DecidableEq

/-- Row of the `service_reminders` table. -/
structure ServiceReminder where
  id : Nat
  carId : Nat
  customerId : Nat
  predictedMileage : Int
  serviceDueMileage : Int
  reminderSent : Bool
  reminderSentAt : Option Int
  deriving DecidableEq

/-- The database state visible to the reminder core. -/
structure DB where
  shops : List Shop
  cars : List Car
  workOrders : List WorkOrder
  reminders : List ServiceReminder
  nextReminderId : Nat
  deriving DecidableEq

instance {ε α : Type} [DecidableEq ε] [DecidableEq α] : DecidableEq (Except ε α) :=
  fun a b =>
  match a, b with
  | .error e1, .error e2 =>
    if h : e1 = e2 then .isTrue (by rw [h])
    else .isFalse (by intro hc; injection hc; contradiction)
  | .error _, .ok _ => .isFalse (by intro hc; injection hc)
  | .ok _, .error _ => .isFalse (by intro hc; injection hc)
  | .ok a1, .ok a2 =>
    if h : a1 = a2 then .isTrue (by rw [h])
    else .isFalse (by intro hc; injection hc; contradiction)

/-- `timedelta(...).days` for a difference of two timestamps (floor division,
as in Python). -/
def wholeDaysBetween (earlier later : Int) : Int :=
  Int.fdiv (later - earlier) 86400

/-- Truncation of a rational toward zero: the value of Python `int(x)` on the
exact value `x`. -/
def ratTrunc (q : ℚ) : Int :=
  Int.tdiv q.num (q.den : Int)

/-- Checked indexing `xs[0]` (raises `IndexError` on an empty list). -/
def headE {α : Type} : List α → Except String α
  | [] => .error "IndexError"
  | x :: _ => .ok x

/-- Checked indexing `xs[-1]` (raises `IndexError` on an empty list). -/
def lastE {α : Type} : List α → Except String α
  | [] => .error "IndexError"
  | [x] => .ok x
  | _ :: x :: xs => lastE (x :: xs)

/-- Unwrapping a nullable column that the code assumes non-NULL. -/
def optE {α : Type} : Option α → Except String α
  | none => .error "TypeError"
  | some x => .ok x

/-- Python `%` on integers with a zero check (`ZeroDivisionError`). -/
def fmodE (a b : Int) : Except String Int :=
  if b = 0 then .error "ZeroDivisionError" else .ok (Int.fmod a b)

/-- Stable insertion of a work order into a list sorted by `created_at`. -/
def insertByCreatedAt (w : WorkOrder) : List WorkOrder → List WorkOrder
  | [] => [w]
  | v :: vs =>
    if w.createdAt ≤ v.createdAt then w :: v :: vs else v :: insertByCreatedAt w vs

/-- Stable sort by `created_at` (`ORDER BY work_orders.created_at`). -/
def sortByCreatedAt : List WorkOrder → List WorkOrder
  | [] => []
  | w :: ws => insertByCreatedAt w (sortByCreatedAt ws)

/-- `db.query(Car).filter(Car.id == car_id).first()`. -/
def DB.findCar (db : DB) (carId : Nat) : Option Car :=
  db.cars.find? fun c => c.id == carId

/-- The query at the head of `calculate_average_km_per_day`: completed work
orders of the car that carry an odometer reading, ordered by `created_at`. -/
def qualifyingWorkOrders (db : DB) (carId : Nat) : List WorkOrder :=
  sortByCreatedAt (db.workOrders.filter fun w =>
    w.carId == carId && w.status == "done" && w.mileageAtIntake.isSome)

/-- `MileageService.calculate_average_km_per_day` from
`app/services/mileage.py`. -/
def calculate_average_km_per_day (s : Settings) (db : DB) (carId : Nat) :
    Except String (Option ℚ × DB) :=
  let work_orders := qualifyingWorkOrders db carId
  if work_orders.length < s.MIN_VISITS_FOR_PREDICTION then
    .ok (none, db)
  else
    match headE work_orders with
    | .error e => .error e
    | .ok first_visit =>
      match lastE work_orders with
      | .error e => .error e
      | .ok last_visit =>
        match optE last_visit.mileageAtIntake with
        | .error e => .error e
        | .ok lastMileage =>
          match optE first_visit.mileageAtIntake with
          | .error e => .error e
          | .ok firstMileage =>
            let mileage_diff : Int := lastMileage - firstMileage
            let days_diff : Int :=
              wholeDaysBetween first_visit.createdAt last_visit.createdAt
            if days_diff = 0 then
              .ok (none, db)
            else
              .ok (some (max 0 ((mileage_diff : ℚ) / (days_diff : ℚ))), db)

/-- `MileageService.predict_mileage` from `app/services/mileage.py`. -/
def predict_mileage (s : Settings) (db : DB) (carId : Nat) (daysAhead : Int) :
    Except String (Option Int × DB) :=
  match db.findCar carId with
  | none => .ok (none, db)
  | some car =>
    match calculate_average_km_per_day s db carId with
    | .error e => .error e
    | .ok (none, db1) => .ok (none, db1)
    | .ok (some avg_km_per_day, db1) =>
      .ok (some (car.currentMileage + ratTrunc (avg_km_per_day * (daysAhead : ℚ))), db1)

/-- `MileageService.needs_service_reminder` from `app/services/mileage.py`. -/
def needs_service_reminder (s : Settings) (db : DB) (carId : Nat) :
    Except String ((Bool × Option Int × Option Int) × DB) :=
  match db.findCar carId with
  | none => .ok ((false, none, none), db)
  | some car =>
    match predict_mileage s db carId s.SERVICE_REMINDER_DAYS_AHEAD with
    | .error e => .error e
    | .ok (none, db1) => .ok ((false, none, none), db1)
    | .ok (some predicted_mileage, db1) =>
      match fmodE car.currentMileage car.serviceIntervalKm with
      | .error e => .error e
      | .ok m =>
        let last_service_mileage := car.currentMileage - m
        let service_due_mileage := last_service_mileage + car.serviceIntervalKm
        .ok ((decide (service_due_mileage ≤ predicted_mileage),
              some predicted_mileage, some service_due_mileage), db1)

/-- The suppression window of `check_all_cars_for_reminders`:
`timedelta(days=30)` in seconds. -/
def suppressionWindow : Int := 30 * 86400

/-- The filter of the "already sent recently" query inside
`check_all_cars_for_reminders` (a NULL `reminder_sent_at` fails the SQL
comparison). -/
def recentSentFor (now : Int) (carId : Nat) (r : ServiceReminder) : Bool :=
  r.carId == carId && r.reminderSent &&
    match r.reminderSentAt with
    | some t => decide (now - suppressionWindow ≤ t)
    | none => false

/-- The filter of the "unsent reminder for this car" query inside
`check_all_cars_for_reminders`. -/
def unsentFor (carId : Nat) (r : ServiceReminder) : Bool :=
  r.carId == carId && r.reminderSent == false

/-- One element of the list returned by `check_all_cars_for_reminders`
(the per-car dict with `car`, `customer`, `predicted_mileage`,
`service_due_mileage`, `reminder_id`). -/
structure ReminderItem where
  carId : Nat
  customerId : Nat
  predictedMileage : Option Int
  serviceDueMileage : Option Int
  reminderId : Nat
  deriving DecidableEq

/-- The body of the per-car loop of `check_all_cars_for_reminders`: returns
the item appended to `cars_needing_reminders` (if any) and the updated
database. Errors raised before any commit leave the state unchanged. -/
def sweepCar (s : Settings) (db : DB) (now : Int) (car : Car) :
    Except String (Option ReminderItem × DB) :=
  match db.reminders.find? (recentSentFor now car.id) with
  | some _ => .ok (none, db)
  | none =>
    match needs_service_reminder s db car.id with
    | .error e => .error e
    | .ok ((needs_reminder, predicted_km, service_due_km), db1) =>
      if needs_reminder then
        match db1.reminders.find? (unsentFor car.id) with
        | some reminder =>
          .ok (some ⟨car.id, car.ownerId, predicted_km, service_due_km, reminder.id⟩, db1)
        | none =>
          match optE predicted_km with
          | .error e => .error e
          | .ok p =>
            match optE service_due_km with
            | .error e => .error e
            | .ok d =>
              let newReminder : ServiceReminder :=
                ⟨db1.nextReminderId, car.id, car.ownerId, p, d, false, none⟩
              .ok (some ⟨car.id, car.ownerId, predicted_km, service_due_km,
                         newReminder.id⟩,
                   { db1 with reminders := db1.reminders ++ [newReminder],
                              nextReminderId := db1.nextReminderId + 1 })
      else
        .ok (none, db1)

/-- The per-car loop of `check_all_cars_for_reminders`. An exception raised
while processing one car escapes the loop: the cars already processed keep
their committed effects, the remaining cars are not visited. -/
def sweepCars (s : Settings) (now : Int) :
    List Car → DB → List ReminderItem → List ReminderItem × DB × Option String
  | [], db, acc => (acc, db, none)
  | car :: rest, db, acc =>
    match sweepCar s db now car with
    | .error e => (acc, db, some e)
    | .ok (none, db') => sweepCars s now rest db' acc
    | .ok (some item, db') => sweepCars s now rest db' (acc ++ [item])

/-- `MileageService.check_all_cars_for_reminders` from
`app/services/mileage.py`. The third component is the exception escaping to
the caller, if any. -/
def check_all_cars_for_reminders (s : Settings) (db : DB) (shopId : Nat) (now : Int) :
    List ReminderItem × DB × Option String :=
  let cars := db.cars.filter fun c => c.shopId == shopId && decide (0 < c.serviceIntervalKm)
  sweepCars s now cars db []

/-- In-place mutation of the first reminder row matched by
`query(ServiceReminder).filter(ServiceReminder.id == reminder_id).first()`. -/
def markSentRows (reminderId : Nat) (now : Int) : List ServiceReminder → List ServiceReminder
  | [] => []
  | r :: rs =>
    if r.id == reminderId then
      { r with reminderSent := true, reminderSentAt := some now } :: rs
    else
      r :: markSentRows reminderId now rs

/-- `MileageService.mark_reminder_sent` from `app/services/mileage.py`. -/
def mark_reminder_sent (db : DB) (reminderId : Nat) (now : Int) : DB :=
  { db with reminders := markSentRows reminderId now db.reminders }

/-- In-place mutation of the first car row matched by
`query(Car).filter(Car.id == car_id).first()` inside `update_car_mileage`. -/
def updateMileageRows (carId : Nat) (newMileage now : Int) : List Car → List Car
  | [] => []
  | c :: cs =>
    if c.id == carId then
      (if c.currentMileage < newMileage then
        { c with currentMileage := newMileage, updatedAt := now } :: cs
       else c :: cs)
    else
      c :: updateMileageRows carId newMileage now cs

/-- `MileageService.update_car_mileage` from `app/services/mileage.py`. -/
def update_car_mileage (db : DB) (carId : Nat) (newMileage now : Int) : DB :=
  { db with cars := updateMileageRows carId newMileage now db.cars }

/-- The notification sink (`SMSService.send_service_reminder_sms`): given the
shop id and the car id of a reminder item, reports success (`true`), failure
(`false`), or raises. -/
def Sink : Type := Nat → Nat → Except String Bool

/-- The per-item send loop of `check_service_reminders` in
`app/services/scheduler.py`: on sink success the reminder is marked sent; a
raised exception escapes with the state and log accumulated so far. -/
def sendLoop (sink : Sink) (shopId : Nat) (now : Int) :
    List ReminderItem → DB → List (Nat × Nat × Bool) →
    DB × List (Nat × Nat × Bool) × Option String
  | [], db, log => (db, log, none)
  | item :: rest, db, log =>
    match sink shopId item.carId with
    | .error e => (db, log, some e)
    | .ok true =>
      sendLoop sink shopId now rest (mark_reminder_sent db item.reminderId now)
        (log ++ [(shopId, item.carId, true)])
    | .ok false =>
      sendLoop sink shopId now rest db (log ++ [(shopId, item.carId, false)])

/-- The per-shop loop of `check_service_reminders`: sweep the shop's cars,
then drive the sink over the returned items. Any exception escapes with the
partial state. -/
def shopLoop (s : Settings) (sink : Sink) (now : Int) :
    List Shop → DB → List (Nat × Nat × Bool) →
    DB × List (Nat × Nat × Bool) × Option String
  | [], db, log => (db, log, none)
  | shop :: rest, db, log =>
    match check_all_cars_for_reminders s db shop.id now with
    | (_, db', some e) => (db', log, some e)
    | (items, db', none) =>
      match sendLoop sink shop.id now items db' log with
      | (db'', log', some e) => (db'', log', some e)
      | (db'', log', none) => shopLoop s sink now rest db'' log'

/-- `check_service_reminders` from `app/services/scheduler.py`: iterate the
active, SMS-enabled shops; the single `try/except` around the whole body
swallows any exception, keeping the partial state and send log. -/
def check_service_reminders (s : Settings) (sink : Sink) (db : DB) (now : Int) :
    DB × List (Nat × Nat × Bool) :=
  let shops := db.shops.filter fun sh => sh.isActive && sh.smsEnabled
  match shopLoop s sink now shops db [] with
  | (db', log, _) => (db', log)

/-- Number of unsent reminder rows for one car in a reminder table. -/
def listUnsent (l : List ServiceReminder) (carId : Nat) : Nat :=
  (l.filter (unsentFor carId)).length

/-- One step of the system: a sweep of some shop at some time (including
sweeps that end in an uncaught exception, which keep their partial state) or
marking some reminder sent. -/
inductive Step (s : Settings) : DB → DB → Prop
  | sweep {db db' : DB} (shopId : Nat) (now : Int) (items : List ReminderItem)
      (err : Option String)
      (h : check_all_cars_for_reminders s db shopId now = (items, db', err)) :
      Step s db db'
  | mark {db : DB} (reminderId : Nat) (now : Int) :
      Step s db (mark_reminder_sent db reminderId now)

/-- `r` is a successful result that left the database unchanged. -/
def okUnchanged {α : Type} [DecidableEq α] (r : Except String (α × DB)) (db : DB) :
    Bool :=
  match r with
  | .ok (_, d) => decide (d = db)
  | .error _ => false

/-! ### Concrete scenario data

`dbP`: the spec's P3/P5 vehicle (rate 100 km/day, not yet due).
`dbQ`: a vehicle that is due (rate 1000 km/day, odometer 99000,
interval 10000, predicted 113000 ≥ threshold 100000), with variants holding
a recently-sent reminder (`dbS`) and a stale unsent reminder (`dbT`).
`dbR`: a vehicle whose rate is 3/2, exposing truncation versus floor.
`dbU`: two shops with three due vehicles for the scheduler scenarios. -/

def woP1 : WorkOrder := ⟨1, "done", some 70000, 0⟩

def woP2 : WorkOrder := ⟨1, "done", some 80000, 8640000⟩

def carP : Car := ⟨1, 1, 11, 90000, 10000, 0⟩

def dbP : DB := ⟨[⟨1, true, true⟩], [carP], [woP1, woP2], [], 0⟩

def woQ1 : WorkOrder := ⟨2, "done", some 0, 0⟩

def woQ2 : WorkOrder := ⟨2, "done", some 100000, 8640000⟩

def carQ : Car := ⟨2, 1, 12, 99000, 10000, 0⟩

def dbQ : DB := ⟨[⟨1, true, true⟩], [carQ], [woQ1, woQ2], [], 0⟩

def reminderQ : ServiceReminder := ⟨0, 2, 12, 113000, 100000, false, none⟩

def dbQ1 : DB := { dbQ with reminders := [reminderQ], nextReminderId := 1 }

def sentReminderS : ServiceReminder := ⟨7, 2, 12, 113000, 100000, true, some 900⟩

def dbS : DB := { dbQ with reminders := [sentReminderS], nextReminderId := 8 }

def staleReminderT : ServiceReminder := ⟨7, 2, 12, 12345, 100, false, none⟩

def dbT : DB := { dbQ with reminders := [staleReminderT], nextReminderId := 8 }

def woR1 : WorkOrder := ⟨3, "done", some 0, 0⟩

def woR2 : WorkOrder := ⟨3, "done", some 3, 172800⟩

def carR : Car := ⟨3, 1, 13, 100, 10000, 0⟩

def dbR : DB := ⟨[], [carR], [woR1, woR2], [], 0⟩

def woU1 : WorkOrder := ⟨4, "done", some 0, 0⟩

def woU2 : WorkOrder := ⟨4, "done", some 100000, 8640000⟩

def carU : Car := ⟨4, 1, 14, 99000, 10000, 0⟩

def woV1 : WorkOrder := ⟨6, "done", some 0, 0⟩

def woV2 : WorkOrder := ⟨6, "done", some 100000, 8640000⟩

def carV : Car := ⟨6, 2, 16, 99000, 10000, 0⟩

def dbU : DB :=
  ⟨[⟨1, true, true⟩, ⟨2, true, true⟩], [carQ, carU, carV],
   [woQ1, woQ2, woU1, woU2, woV1, woV2], [], 0⟩

/-- A sink that raises on car 2 and succeeds on every other car. -/
def sinkBad : Sink := fun _ carId =>
  if carId == 2 then .error "TwilioException" else .ok true

/-- A sink that always succeeds. -/
def sinkGood : Sink := fun _ _ => .ok true

def itemQ : ReminderItem := ⟨2, 12, some 113000, some 100000, 0⟩

def itemT : ReminderItem := ⟨2, 12, some 113000, some 100000, 7⟩

def itemU2 : ReminderItem := ⟨2, 12, some 113000, some 100000, 0⟩

def itemU4 : ReminderItem := ⟨4, 14, some 113000, some 100000, 1⟩

def itemU6 : ReminderItem := ⟨6, 16, some 113000, some 100000, 2⟩

def dbUa2 : DB :=
  { dbU with reminders := [⟨0, 2, 12, 113000, 100000, false, none⟩],
             nextReminderId := 1 }

def dbUa : DB :=
  { dbU with reminders := [⟨0, 2, 12, 113000, 100000, false, none⟩,
                           ⟨1, 4, 14, 113000, 100000, false, none⟩],
             nextReminderId := 2 }

def dbUb : DB :=
  { dbU with reminders := [⟨0, 2, 12, 113000, 100000, true, some 1000⟩,
                           ⟨1, 4, 14, 113000, 100000, true, some 1000⟩],
             nextReminderId := 2 }

def dbUc : DB :=
  { dbU with reminders := [⟨0, 2, 12, 113000, 100000, true, some 1000⟩,
                           ⟨1, 4, 14, 113000, 100000, true, some 1000⟩,
                           ⟨2, 6, 16, 113000, 100000, false, none⟩],
             nextReminderId := 3 }

def dbUd : DB :=
  { dbU with reminders := [⟨0, 2, 12, 113000, 100000, true, some 1000⟩,
                           ⟨1, 4, 14, 113000, 100000, true, some 1000⟩,
                           ⟨2, 6, 16, 113000, 100000, true, some 1000⟩],
             nextReminderId := 3 }

/-! ### Basic lemmas about the helper functions -/

lemma ratTrunc_intCast (n : ℤ) : ratTrunc ((n : ℚ)) = n := by
  simp [ratTrunc, Rat.num_intCast, Rat.den_intCast]

lemma ratTrunc_eq_floor {q : ℚ} (hq : 0 ≤ q) : ratTrunc q = ⌊q⌋ := by
  have hnum : 0 ≤ q.num := Rat.num_nonneg.mpr hq
  have hden : (0 : ℤ) ≤ (q.den : ℤ) := Int.natCast_nonneg _
  rw [ratTrunc, Int.tdiv_eq_ediv hnum hden, Rat.floor_def]

lemma ratTrunc_eq_ceil {q : ℚ} (hq : q ≤ 0) : ratTrunc q = ⌈q⌉ := by
  have hnum : q.num ≤ 0 := Rat.num_nonpos.mpr hq
  have hden : (0 : ℤ) ≤ (q.den : ℤ) := Int.natCast_nonneg _
  have hneg : (-q).num = -q.num := Rat.neg_num q ▸ rfl
  have hnegd : (-q).den = q.den := Rat.neg_den q ▸ rfl
  have : ratTrunc q = -ratTrunc (-q) := by
    simp [ratTrunc, hneg, hnegd, Int.neg_tdiv]
  rw [this, ratTrunc_eq_floor (by simpa using hq), Int.floor_neg, neg_neg]

lemma headE_eq_head? {α : Type} (l : List α) :
    headE l = match l.head? with
      | none => .error "IndexError"
      | some x => .ok x := by
  cases l <;> rfl

lemma lastE_eq_getLast? {α : Type} (l : List α) :
    lastE l = match l.getLast? with
      | none => .error "IndexError"
      | some x => .ok x := by
  induction l with
  | nil => rfl
  | cons a l ih =>
    cases l with
    | nil => rfl
    | cons b m =>
      rw [lastE, ih]
      have : (a :: b :: m).getLast? = (b :: m).getLast? := by
        simp [List.getLast?_cons_cons]
      rw [this]

lemma mem_insertByCreatedAt {w v : WorkOrder} {l : List WorkOrder} :
    v ∈ insertByCreatedAt w l ↔ v = w ∨ v ∈ l := by
  induction l with
  | nil => simp [insertByCreatedAt]
  | cons a l ih =>
    simp only [insertByCreatedAt]
    split
    · simp
    · simp [ih]; tauto

lemma mem_sortByCreatedAt {l : List WorkOrder} {v : WorkOrder} :
    v ∈ sortByCreatedAt l ↔ v ∈ l := by
  induction l with
  | nil => simp [sortByCreatedAt]
  | cons a l ih => simp [sortByCreatedAt, mem_insertByCreatedAt, ih]

lemma length_insertByCreatedAt (w : WorkOrder) (l : List WorkOrder) :
    (insertByCreatedAt w l).length = l.length + 1 := by
  induction l with
  | nil => rfl
  | cons a l ih =>
    simp only [insertByCreatedAt]
    split <;> simp [ih]

lemma length_sortByCreatedAt (l : List WorkOrder) :
    (sortByCreatedAt l).length = l.length := by
  induction l with
  | nil => rfl
  | cons a l ih => simp [sortByCreatedAt, length_insertByCreatedAt, ih]

lemma qualifying_isSome {db : DB} {carId : Nat} {w : WorkOrder}
    (hw : w ∈ qualifyingWorkOrders db carId) : w.mileageAtIntake.isSome := by
  rw [qualifyingWorkOrders, mem_sortByCreatedAt] at hw
  have h := List.of_mem_filter hw
  simp only [Bool.and_eq_true] at h
  exact h.2

/-! ### The read-only operations return `.ok` and do not change the state -/

lemma ok_pair_db {α : Type} {x v : α} {db db' : DB}
    (h : (Except.ok (x, db) : Except String (α × DB)) = .ok (v, db')) : db' = db := by
  injection h with h1
  injection h1 with h2 h3
  exact h3.symm

lemma calc_ok_db {s : Settings} {db : DB} {c : Nat} {v : Option ℚ} {db' : DB}
    (h : calculate_average_km_per_day s db c = .ok (v, db')) : db' = db := by
  simp only [calculate_average_km_per_day] at h
  split at h
  · exact ok_pair_db h
  · split at h
    · exact absurd h (by simp)
    · split at h
      · exact absurd h (by simp)
      · split at h
        · exact absurd h (by simp)
        · split at h
          · exact absurd h (by simp)
          · split at h <;> exact ok_pair_db h

lemma predict_ok_db {s : Settings} {db : DB} {c : Nat} {d : Int} {v : Option Int}
    {db' : DB} (h : predict_mileage s db c d = .ok (v, db')) : db' = db := by
  simp only [predict_mileage] at h
  split at h
  · exact ok_pair_db h
  · split at h
    · exact absurd h (by simp)
    all_goals
      rename_i heq
      rw [calc_ok_db heq] at h
      exact ok_pair_db h

lemma needs_ok_db {s : Settings} {db : DB} {c : Nat}
    {v : Bool × Option Int × Option Int} {db' : DB}
    (h : needs_service_reminder s db c = .ok (v, db')) : db' = db := by
  simp only [needs_service_reminder] at h
  split at h
  · exact ok_pair_db h
  · split at h
    · exact absurd h (by simp)
    · rename_i heq
      rw [predict_ok_db heq] at h
      exact ok_pair_db h
    · rename_i heq
      rw [predict_ok_db heq] at h
      split at h
      · exact absurd h (by simp)
      · exact ok_pair_db h

/-! ### Counting unsent reminder records per car -/

lemma filter_of_find?_none {α : Type} {p : α → Bool} {l : List α}
    (h : l.find? p = none) : l.filter p = [] := by
  rw [List.filter_eq_nil_iff]
  intro a ha
  exact List.find?_eq_none.mp h a ha

lemma mem_filter_of_find? {α : Type} {p : α → Bool} {l : List α} {r : α}
    (h : l.find? p = some r) : r ∈ l.filter p :=
  List.mem_filter.mpr ⟨List.mem_of_find?_eq_some h, List.find?_some h⟩

lemma find?_of_filter_singleton {α : Type} {p : α → Bool} {l : List α} {r : α}
    (h : l.filter p = [r]) : l.find? p = some r := by
  induction l with
  | nil => simp at h
  | cons a l ih =>
    rw [List.filter_cons] at h
    by_cases hp : p a
    · simp only [hp, if_true] at h
      rw [List.find?_cons_of_pos _ hp]
      exact congrArg some (List.cons_eq_cons.mp h).1
    · rw [if_neg hp] at h
      rw [List.find?_cons_of_neg _ (by simp [hp])]
      exact ih h

/-- Exhaustive description of one iteration of the per-car loop of
`check_all_cars_for_reminders`, when it does not raise. -/
lemma sweepCar_cases {s : Settings} {db : DB} {now : Int} {car : Car}
    {o : Option ReminderItem} {db' : DB}
    (h : sweepCar s db now car = .ok (o, db')) :
    (o = none ∧ db' = db) ∨
    (∃ item, o = some item ∧ item.carId = car.id ∧
      db.reminders.find? (recentSentFor now car.id) = none ∧
      ((∃ r, db.reminders.find? (unsentFor car.id) = some r ∧
          item.reminderId = r.id ∧ db' = db) ∨
       (db.reminders.find? (unsentFor car.id) = none ∧
         item.reminderId = db.nextReminderId ∧
         ∃ p d, db' = { db with
           reminders := db.reminders ++
             [⟨db.nextReminderId, car.id, car.ownerId, p, d, false, none⟩],
           nextReminderId := db.nextReminderId + 1 }))) := by
  simp only [sweepCar] at h
  split at h
  · rename_i hrec
    injection h with h1
    injection h1 with h2 h3
    exact Or.inl ⟨h2.symm, h3.symm⟩
  · rename_i hrec
    split at h
    · exact absurd h (by simp)
    · rename_i heq
      rw [needs_ok_db heq] at h
      split at h
      · split at h
        · rename_i hfind
          injection h with h1
          injection h1 with h2 h3
          refine Or.inr ⟨_, h2.symm, rfl, hrec, Or.inl ⟨_, hfind, rfl, h3.symm⟩⟩
        · rename_i hfind
          split at h
          · exact absurd h (by simp)
          · split at h
            · exact absurd h (by simp)
            · rename_i p hp d hd
              injection h with h1
              injection h1 with h2 h3
              exact Or.inr ⟨_, h2.symm, rfl, hrec,
                Or.inr ⟨hfind, rfl, _, _, h3.symm⟩⟩
      · injection h with h1
        injection h1 with h2 h3
        exact Or.inl ⟨h2.symm, h3.symm⟩

lemma sweepCar_count_bounds {s : Settings} {db : DB} {now : Int} {car : Car}
    {o : Option ReminderItem} {db' : DB}
    (h : sweepCar s db now car = .ok (o, db')) (c : Nat) :
    listUnsent db.reminders c ≤ listUnsent db'.reminders c ∧
    listUnsent db'.reminders c ≤ max (listUnsent db.reminders c) 1 := by
  rcases sweepCar_cases h with ⟨_, rfl⟩ | ⟨item, ho, hcar, hrec, hcase⟩
  · constructor <;> omega
  · rcases hcase with ⟨r, hfind, hid, rfl⟩ | ⟨hfind, hid, p, d, rfl⟩
    · constructor <;> omega
    · have hz : listUnsent db.reminders car.id = 0 := by
        simp [listUnsent, filter_of_find?_none hfind]
      by_cases hc : car.id = c
      · subst hc
        simp only [listUnsent, List.filter_append] at *
        have : List.filter (unsentFor car.id)
            [⟨db.nextReminderId, car.id, car.ownerId, p, d, false, none⟩] =
            [⟨db.nextReminderId, car.id, car.ownerId, p, d, false, none⟩] := by
          simp [unsentFor]
        rw [this]
        simp_all
      · simp only [listUnsent, List.filter_append]
        have : List.filter (unsentFor c)
            [⟨db.nextReminderId, car.id, car.ownerId, p, d, false, none⟩] = [] := by
          simp [unsentFor, hc]
        rw [this]
        simp

lemma sweepCar_item_one {s : Settings} {db : DB} {now : Int} {car : Car}
    {item : ReminderItem} {db' : DB}
    (h : sweepCar s db now car = .ok (some item, db')) :
    1 ≤ listUnsent db'.reminders item.carId := by
  rcases sweepCar_cases h with ⟨hno, _⟩ | ⟨item', ho, hcar, hrec, hcase⟩
  · exact absurd hno (by simp)
  · have hitem : item' = item := by
      injection ho with hv
      exact hv.symm
    subst hitem
    rcases hcase with ⟨r, hfind, hid, rfl⟩ | ⟨hfind, hid, p, d, rfl⟩
    · have := mem_filter_of_find? hfind
      have hpos := List.length_pos_of_mem this
      simpa [listUnsent, hcar] using hpos
    · have hz : List.filter (unsentFor car.id) db.reminders = [] :=
        filter_of_find?_none hfind
      rw [hcar]
      simp [listUnsent, List.filter_append, hz, unsentFor]

/-! ### Properties of the whole per-car loop -/

lemma sweepCars_count_bounds {s : Settings} {now : Int} {cars : List Car} :
    ∀ {db : DB} {acc items : List ReminderItem} {db' : DB} {err : Option String},
    sweepCars s now cars db acc = (items, db', err) → ∀ c,
    listUnsent db.reminders c ≤ listUnsent db'.reminders c ∧
    listUnsent db'.reminders c ≤ max (listUnsent db.reminders c) 1 := by
  induction cars with
  | nil =>
    intro db acc items db' err h c
    cases h
    constructor <;> omega
  | cons car rest ih =>
    intro db acc items db' err h c
    rw [sweepCars] at h
    split at h
    · cases h
      constructor <;> omega
    · rename_i db1 heq
      have h1 := sweepCar_count_bounds heq c
      have h2 := ih h c
      constructor <;> omega
    · rename_i item db1 heq
      have h1 := sweepCar_count_bounds heq c
      have h2 := ih h c
      constructor <;> omega

lemma sweepCars_items_one {s : Settings} {now : Int} {cars : List Car} :
    ∀ {db : DB} {acc items : List ReminderItem} {db' : DB} {err : Option String},
    sweepCars s now cars db acc = (items, db', err) →
    ∀ it ∈ items, it ∈ acc ∨ 1 ≤ listUnsent db'.reminders it.carId := by
  induction cars with
  | nil =>
    intro db acc items db' err h it hit
    cases h
    exact Or.inl hit
  | cons car rest ih =>
    intro db acc items db' err h it hit
    rw [sweepCars] at h
    split at h
    · cases h
      exact Or.inl hit
    · rename_i db1 heq
      exact ih h it hit
    · rename_i item db1 heq
      rcases ih h it hit with hacc | hge
      · rcases List.mem_append.mp hacc with hacc' | hone
        · exact Or.inl hacc'
        · have hit' : it = item := by simpa using hone
          subst hit'
          have h1 := sweepCar_item_one heq
          have h2 := (sweepCars_count_bounds h it.carId).1
          exact Or.inr (le_trans h1 h2)
      · exact Or.inr hge

lemma sweepCars_mem_reminders {s : Settings} {now : Int} {cars : List Car} :
    ∀ {db : DB} {acc items : List ReminderItem} {db' : DB} {err : Option String},
    sweepCars s now cars db acc = (items, db', err) →
    ∀ r ∈ db.reminders, r ∈ db'.reminders := by
  induction cars with
  | nil =>
    intro db acc items db' err h r hr
    cases h
    exact hr
  | cons car rest ih =>
    intro db acc items db' err h r hr
    rw [sweepCars] at h
    split at h
    · cases h
      exact hr
    · rename_i db1 heq
      rcases sweepCar_cases heq with ⟨_, rfl⟩ | ⟨item, ho, hcar, hrec, hcase⟩
      · exact ih h r hr
      · rcases hcase with ⟨r', hfind, hid, rfl⟩ | ⟨hfind, hid, p, d, rfl⟩
        · exact ih h r hr
        · exact ih h r (List.mem_append_left _ hr)
    · rename_i item db1 heq
      rcases sweepCar_cases heq with ⟨_, rfl⟩ | ⟨item', ho, hcar, hrec, hcase⟩
      · exact ih h r hr
      · rcases hcase with ⟨r', hfind, hid, rfl⟩ | ⟨hfind, hid, p, d, rfl⟩
        · exact ih h r hr
        · exact ih h r (List.mem_append_left _ hr)

lemma sweepCar_mem {s : Settings} {db : DB} {now : Int} {car : Car}
    {o : Option ReminderItem} {db' : DB} (h : sweepCar s db now car = .ok (o, db'))
    {r : ServiceReminder} (hr : r ∈ db.reminders) : r ∈ db'.reminders := by
  rcases sweepCar_cases h with ⟨_, rfl⟩ | ⟨item, ho, hcar, hrec, hcase⟩
  · exact hr
  · rcases hcase with ⟨r', hfind, hid, rfl⟩ | ⟨hfind, hid, p, d, rfl⟩
    · exact hr
    · exact List.mem_append_left _ hr

/-- If some reminder for this car was sent inside the suppression window, the
per-car loop body skips the car without touching the state. -/
lemma sweepCar_recent_skip {s : Settings} {db : DB} {now : Int} {car : Car}
    {r : ServiceReminder} (hr : r ∈ db.reminders)
    (hpred : recentSentFor now car.id r = true) :
    sweepCar s db now car = .ok (none, db) := by
  cases hfind : db.reminders.find? (recentSentFor now car.id) with
  | none => exact absurd hpred (by simp [List.find?_eq_none.mp hfind r hr])
  | some x => simp [sweepCar, hfind]

lemma sweepCars_recent_no_item {s : Settings} {now : Int} {c : Nat}
    {r : ServiceReminder} (hpred : recentSentFor now c r = true) {cars : List Car} :
    ∀ {db : DB} {acc items : List ReminderItem} {db' : DB} {err : Option String},
    r ∈ db.reminders →
    sweepCars s now cars db acc = (items, db', err) →
    r ∈ db'.reminders ∧ ∀ it ∈ items, it ∈ acc ∨ it.carId ≠ c := by
  induction cars with
  | nil =>
    intro db acc items db' err hr h
    cases h
    exact ⟨hr, fun it hit => Or.inl hit⟩
  | cons car rest ih =>
    intro db acc items db' err hr h
    rw [sweepCars] at h
    by_cases hc : car.id = c
    · rw [show sweepCar s db now car = .ok (none, db) from
        sweepCar_recent_skip hr (hc ▸ hpred)] at h
      exact ih hr h
    · split at h
      · cases h
        exact ⟨hr, fun it hit => Or.inl hit⟩
      · rename_i db1 heq
        exact ih (sweepCar_mem heq hr) h
      · rename_i item db1 heq
        have hcar : item.carId = car.id := by
          rcases sweepCar_cases heq with ⟨hno, _⟩ | ⟨item', ho, hcar', _, _⟩
          · exact absurd hno (by simp)
          · have : item' = item := by injection ho with hv; exact hv.symm
            exact this ▸ hcar'
        obtain ⟨hrmem, hitems⟩ := ih (sweepCar_mem heq hr) h
        refine ⟨hrmem, fun it hit => ?_⟩
        rcases hitems it hit with hacc | hne
        · rcases List.mem_append.mp hacc with hacc' | hone
          · exact Or.inl hacc'
          · have : it = item := by simpa using hone
            subst this
            exact Or.inr (by rw [hcar]; exact hc)
        · exact Or.inr hne

/-- If the car has exactly one unsent reminder row, the per-car loop body
keeps that row (and the whole unsent set for the car) unchanged, and any item
it emits for that car references that row's id. -/
lemma sweepCar_filter_fixed {s : Settings} {db : DB} {now : Int} {car : Car}
    {c : Nat} {r : ServiceReminder} {o : Option ReminderItem} {db' : DB}
    (hf : db.reminders.filter (unsentFor c) = [r])
    (h : sweepCar s db now car = .ok (o, db')) :
    db'.reminders.filter (unsentFor c) = [r] ∧
    ∀ item, o = some item → item.carId = c → item.reminderId = r.id := by
  rcases sweepCar_cases h with ⟨hno, rfl⟩ | ⟨item, ho, hcar, hrec, hcase⟩
  · exact ⟨hf, fun item hoi => absurd (hno ▸ hoi) (by simp)⟩
  · rcases hcase with ⟨r', hfind, hid, rfl⟩ | ⟨hfind, hid, p, d, rfl⟩
    · refine ⟨hf, fun item' hoi hcc => ?_⟩
      have hii : item' = item := by
        rw [ho] at hoi
        injection hoi with hv
        exact hv.symm
      subst hii
      have hcid : car.id = c := by rw [← hcar, hcc]
      rw [hcid] at hfind
      rw [find?_of_filter_singleton hf] at hfind
      injection hfind with hv
      rw [hid, hv]
    · by_cases hcid : car.id = c
      · exfalso
        rw [hcid] at hfind
        rw [filter_of_find?_none hfind] at hf
        exact absurd hf (by simp)
      · constructor
        · have hnewfil : List.filter (unsentFor c)
              [⟨db.nextReminderId, car.id, car.ownerId, p, d, false, none⟩] = [] := by
            simp [unsentFor, hcid]
          simp only [List.filter_append, hnewfil, hf, List.append_nil]
        · intro item' hoi hcc
          have hii : item' = item := by
            rw [ho] at hoi
            injection hoi with hv
            exact hv.symm
          subst hii
          exact absurd (by rw [← hcar, hcc]) hcid

lemma sweepCars_filter_fixed {s : Settings} {now : Int} {c : Nat}
    {r : ServiceReminder} {cars : List Car} :
    ∀ {db : DB} {acc items : List ReminderItem} {db' : DB} {err : Option String},
    db.reminders.filter (unsentFor c) = [r] →
    sweepCars s now cars db acc = (items, db', err) →
    db'.reminders.filter (unsentFor c) = [r] ∧
    ∀ it ∈ items, it ∈ acc ∨ it.carId ≠ c ∨ it.reminderId = r.id := by
  induction cars with
  | nil =>
    intro db acc items db' err hf h
    cases h
    exact ⟨hf, fun it hit => Or.inl hit⟩
  | cons car rest ih =>
    intro db acc items db' err hf h
    rw [sweepCars] at h
    split at h
    · cases h
      exact ⟨hf, fun it hit => Or.inl hit⟩
    · rename_i db1 heq
      exact ih (sweepCar_filter_fixed hf heq).1 h
    · rename_i item db1 heq
      obtain ⟨hf1, hone⟩ := sweepCar_filter_fixed hf heq
      obtain ⟨hf2, hitems⟩ := ih hf1 h
      refine ⟨hf2, fun it hit => ?_⟩
      rcases hitems it hit with hacc | hrest
      · rcases List.mem_append.mp hacc with hacc' | honemem
        · exact Or.inl hacc'
        · have : it = item := by simpa using honemem
          subst this
          by_cases hcc : it.carId = c
          · exact Or.inr (Or.inr (hone it rfl hcc))
          · exact Or.inr (Or.inl hcc)
      · exact Or.inr hrest

/-! ### The mutating row updates -/

lemma markSentRows_count (reminderId : Nat) (now : Int) (c : Nat)
    (l : List ServiceReminder) :
    listUnsent (markSentRows reminderId now l) c ≤ listUnsent l c := by
  induction l with
  | nil => simp [markSentRows]
  | cons r rs ih =>
    rw [markSentRows]
    split
    · simp only [listUnsent, List.filter_cons]
      have hupd : unsentFor c
          { r with reminderSent := true, reminderSentAt := some now } = false := by
        simp [unsentFor]
      rw [hupd]
      simp only [Bool.false_eq_true, if_false]
      split
      · simp
      · exact le_refl _
    · simp only [listUnsent, List.filter_cons]
      split <;> simpa using ih

lemma markSentRows_not_found {reminderId : Nat} {now : Int}
    {l : List ServiceReminder} (h : ∀ r ∈ l, r.id ≠ reminderId) :
    markSentRows reminderId now l = l := by
  induction l with
  | nil => rfl
  | cons r rs ih =>
    rw [markSentRows]
    have hne : (r.id == reminderId) = false := by
      simpa using h r (List.mem_cons_self r rs)
    rw [if_neg (by simp [hne])]
    rw [ih fun x hx => h x (List.mem_cons_of_mem _ hx)]

lemma markSentRows_forall₂ (reminderId : Nat) (now : Int) (l : List ServiceReminder) :
    List.Forall₂ (fun r r' =>
      (r.id = reminderId ∧
        r' = { r with reminderSent := true, reminderSentAt := some now }) ∨ r' = r)
      l (markSentRows reminderId now l) := by
  induction l with
  | nil => exact List.Forall₂.nil
  | cons r rs ih =>
    rw [markSentRows]
    split
    · rename_i hid
      refine List.Forall₂.cons (Or.inl ⟨by simpa using hid, rfl⟩) ?_
      exact List.forall₂_same.mpr fun x _ => Or.inr rfl
    · exact List.Forall₂.cons (Or.inr rfl) ih

lemma updateMileageRows_not_found {carId : Nat} {m now : Int}
    {l : List Car} (h : ∀ c ∈ l, c.id ≠ carId) :
    updateMileageRows carId m now l = l := by
  induction l with
  | nil => rfl
  | cons c cs ih =>
    rw [updateMileageRows]
    have hne : (c.id == carId) = false := by
      simpa using h c (List.mem_cons_self c cs)
    rw [if_neg (by simp [hne])]
    rw [ih fun x hx => h x (List.mem_cons_of_mem _ hx)]

lemma updateMileageRows_forall₂ (carId : Nat) (m now : Int) (l : List Car) :
    List.Forall₂ (fun c c' =>
      (c.id = carId ∧ c.currentMileage < m ∧
        c' = { c with currentMileage := m, updatedAt := now }) ∨ c' = c)
      l (updateMileageRows carId m now l) := by
  induction l with
  | nil => exact List.Forall₂.nil
  | cons c cs ih =>
    rw [updateMileageRows]
    split
    · rename_i hid
      split
      · rename_i hlt
        refine List.Forall₂.cons (Or.inl ⟨by simpa using hid, hlt, rfl⟩) ?_
        exact List.forall₂_same.mpr fun x _ => Or.inr rfl
      · refine List.Forall₂.cons (Or.inr rfl) ?_
        exact List.forall₂_same.mpr fun x _ => Or.inr rfl
    · exact List.Forall₂.cons (Or.inr rfl) ih

lemma updateMileageRows_found_ge {carId : Nat} {m now : Int} {l : List Car}
    {car : Car} (hfind : l.find? (fun c => c.id == carId) = some car)
    (hge : ¬ car.currentMileage < m) :
    updateMileageRows carId m now l = l := by
  induction l with
  | nil => simp at hfind
  | cons c cs ih =>
    rw [updateMileageRows]
    by_cases hc : (c.id == carId) = true
    · simp only [List.find?, hc] at hfind
      have : c = car := by injection hfind
      subst this
      rw [if_pos hc, if_neg hge]
    · have hcb : (c.id == carId) = false := by simpa using hc
      simp only [List.find?, hcb] at hfind
      rw [if_neg hc, ih hfind]

/-! ### The sweep as a transition relation -/

lemma check_all_count_bounds {s : Settings} {db : DB} {shopId : Nat} {now : Int}
    {items : List ReminderItem} {db' : DB} {err : Option String}
    (h : check_all_cars_for_reminders s db shopId now = (items, db', err)) (c : Nat) :
    listUnsent db.reminders c ≤ listUnsent db'.reminders c ∧
    listUnsent db'.reminders c ≤ max (listUnsent db.reminders c) 1 :=
  sweepCars_count_bounds h c

lemma check_all_items_one {s : Settings} {db : DB} {shopId : Nat} {now : Int}
    {items : List ReminderItem} {db' : DB} {err : Option String}
    (h : check_all_cars_for_reminders s db shopId now = (items, db', err)) :
    ∀ it ∈ items, 1 ≤ listUnsent db'.reminders it.carId := by
  intro it hit
  rcases sweepCars_items_one h it hit with habs | hone
  · exact absurd habs (by simp)
  · exact hone

/-! ### Short-circuiting of the scheduler loops on an uncaught exception -/

lemma sendLoop_append {sink : Sink} {shopId : Nat} {now : Int}
    {i1 : List ReminderItem} (i2 : List ReminderItem) :
    ∀ {db : DB} {log : List (Nat × Nat × Bool)} {db1 : DB}
      {log1 : List (Nat × Nat × Bool)} {e : String},
    sendLoop sink shopId now i1 db log = (db1, log1, some e) →
    sendLoop sink shopId now (i1 ++ i2) db log = (db1, log1, some e) := by
  induction i1 with
  | nil =>
    intro db log db1 log1 e h
    exact absurd h (by simp [sendLoop])
  | cons item rest ih =>
    intro db log db1 log1 e h
    rw [sendLoop] at h
    rw [List.cons_append, sendLoop]
    split at h
    · exact h
    · exact ih h
    · exact ih h

lemma shopLoop_append {s : Settings} {sink : Sink} {now : Int}
    {l1 : List Shop} (l2 : List Shop) :
    ∀ {db : DB} {log : List (Nat × Nat × Bool)} {db1 : DB}
      {log1 : List (Nat × Nat × Bool)} {e : String},
    shopLoop s sink now l1 db log = (db1, log1, some e) →
    shopLoop s sink now (l1 ++ l2) db log = (db1, log1, some e) := by
  induction l1 with
  | nil =>
    intro db log db1 log1 e h
    exact absurd h (by simp [shopLoop])
  | cons shop rest ih =>
    intro db log db1 log1 e h
    rw [shopLoop] at h
    rw [List.cons_append, shopLoop]
    split at h
    · exact h
    · split at h
      · exact h
      · exact ih h

/-! ### Evaluation of the due-car pattern (two visits 100 days apart,
odometer 0 then 100000, current odometer 99000, interval 10000) -/

lemma calc_eval_due {db : DB} {cid : Nat}
    (hq : qualifyingWorkOrders db cid =
      [⟨cid, "done", some 0, 0⟩, ⟨cid, "done", some 100000, 8640000⟩]) :
    calculate_average_km_per_day defaultSettings db cid = .ok (some 1000, db) := by
  simp only [calculate_average_km_per_day, hq]
  norm_num [headE, lastE, optE, wholeDaysBetween, defaultSettings]
  have h1 : Int.fdiv 8640000 86400 = (100 : ℤ) := by decide
  rw [h1]
  push_cast
  norm_num [sup_eq_right]

lemma predict_eval_due {db : DB} {cid sh ow : Nat}
    (hfind : db.findCar cid = some ⟨cid, sh, ow, 99000, 10000, 0⟩)
    (hq : qualifyingWorkOrders db cid =
      [⟨cid, "done", some 0, 0⟩, ⟨cid, "done", some 100000, 8640000⟩]) :
    predict_mileage defaultSettings db cid 14 = .ok (some 113000, db) := by
  simp only [predict_mileage, hfind, calc_eval_due hq]
  have h1 : ((1000 : ℚ) * ((14 : ℤ) : ℚ)) = ((14000 : ℤ) : ℚ) := by
    push_cast
    norm_num
  rw [h1, ratTrunc_intCast]
  norm_num

lemma needs_eval_due {db : DB} {cid sh ow : Nat}
    (hfind : db.findCar cid = some ⟨cid, sh, ow, 99000, 10000, 0⟩)
    (hq : qualifyingWorkOrders db cid =
      [⟨cid, "done", some 0, 0⟩, ⟨cid, "done", some 100000, 8640000⟩]) :
    needs_service_reminder defaultSettings db cid =
      .ok ((true, some 113000, some 100000), db) := by
  have h14 : defaultSettings.SERVICE_REMINDER_DAYS_AHEAD = 14 := rfl
  simp only [needs_service_reminder, hfind, h14, predict_eval_due hfind hq]
  have hm : fmodE 99000 10000 = .ok 9000 := by
    rw [fmodE, if_neg (by norm_num : ¬(10000 : ℤ) = 0),
        show Int.fmod 99000 10000 = (9000 : ℤ) from by decide]
  rw [hm]
  norm_num

lemma sweepCar_eval_due {db : DB} {now : Int} {cid sh ow : Nat}
    (hfind : db.findCar cid = some ⟨cid, sh, ow, 99000, 10000, 0⟩)
    (hq : qualifyingWorkOrders db cid =
      [⟨cid, "done", some 0, 0⟩, ⟨cid, "done", some 100000, 8640000⟩])
    (hrecent : db.reminders.find? (recentSentFor now cid) = none) :
    sweepCar defaultSettings db now ⟨cid, sh, ow, 99000, 10000, 0⟩ =
      match db.reminders.find? (unsentFor cid) with
      | some r => .ok (some ⟨cid, ow, some 113000, some 100000, r.id⟩, db)
      | none =>
        .ok (some ⟨cid, ow, some 113000, some 100000, db.nextReminderId⟩,
             { db with
               reminders := db.reminders ++
                 [⟨db.nextReminderId, cid, ow, 113000, 100000, false, none⟩],
               nextReminderId := db.nextReminderId + 1 }) := by
  simp only [sweepCar, hrecent, needs_eval_due hfind hq]
  cases hu : db.reminders.find? (unsentFor cid) with
  | none => simp [optE]
  | some r => simp

/-! ### Concrete runs of the sweep and the scheduler -/

lemma sweepCar_dbQ : sweepCar defaultSettings dbQ 1000 carQ = .ok (some itemQ, dbQ1) := by
  rw [show carQ = (⟨2, 1, 12, 99000, 10000, 0⟩ : Car) from rfl,
      sweepCar_eval_due (by decide) (by decide) (by decide)]
  decide

lemma checkQ1 : check_all_cars_for_reminders defaultSettings dbQ 1 1000 =
    ([itemQ], dbQ1, none) := by
  have hfilter : dbQ.cars.filter
      (fun c => c.shopId == 1 && decide (0 < c.serviceIntervalKm)) = [carQ] := by decide
  simp only [check_all_cars_for_reminders, hfilter, sweepCars, sweepCar_dbQ]
  decide

lemma sweepCar_dbQ1 : sweepCar defaultSettings dbQ1 1000 carQ = .ok (some itemQ, dbQ1) := by
  rw [show carQ = (⟨2, 1, 12, 99000, 10000, 0⟩ : Car) from rfl,
      sweepCar_eval_due (by decide) (by decide) (by decide)]
  decide

lemma checkQ2 : check_all_cars_for_reminders defaultSettings dbQ1 1 1000 =
    ([itemQ], dbQ1, none) := by
  have hfilter : dbQ1.cars.filter
      (fun c => c.shopId == 1 && decide (0 < c.serviceIntervalKm)) = [carQ] := by decide
  simp only [check_all_cars_for_reminders, hfilter, sweepCars, sweepCar_dbQ1]
  decide

lemma sweepCar_dbT : sweepCar defaultSettings dbT 1000 carQ = .ok (some itemT, dbT) := by
  rw [show carQ = (⟨2, 1, 12, 99000, 10000, 0⟩ : Car) from rfl,
      sweepCar_eval_due (by decide) (by decide) (by decide)]
  decide

lemma checkT : check_all_cars_for_reminders defaultSettings dbT 1 1000 =
    ([itemT], dbT, none) := by
  have hfilter : dbT.cars.filter
      (fun c => c.shopId == 1 && decide (0 < c.serviceIntervalKm)) = [carQ] := by decide
  simp only [check_all_cars_for_reminders, hfilter, sweepCars, sweepCar_dbT]
  decide

lemma checkS : check_all_cars_for_reminders defaultSettings dbS 1 1000 =
    ([], dbS, none) := by
  decide

lemma sweepCar_dbU2 : sweepCar defaultSettings dbU 1000 carQ = .ok (some itemU2, dbUa2) := by
  rw [show carQ = (⟨2, 1, 12, 99000, 10000, 0⟩ : Car) from rfl,
      sweepCar_eval_due (by decide) (by decide) (by decide)]
  decide

lemma sweepCar_dbU4 : sweepCar defaultSettings dbUa2 1000 carU = .ok (some itemU4, dbUa) := by
  rw [show carU = (⟨4, 1, 14, 99000, 10000, 0⟩ : Car) from rfl,
      sweepCar_eval_due (by decide) (by decide) (by decide)]
  decide

lemma checkU1 : check_all_cars_for_reminders defaultSettings dbU 1 1000 =
    ([itemU2, itemU4], dbUa, none) := by
  have hfilter : dbU.cars.filter
      (fun c => c.shopId == 1 && decide (0 < c.serviceIntervalKm)) =
      [carQ, carU] := by decide
  simp only [check_all_cars_for_reminders, hfilter, sweepCars, sweepCar_dbU2,
    sweepCar_dbU4]
  decide

lemma sweepCar_dbU6 : sweepCar defaultSettings dbUb 1000 carV = .ok (some itemU6, dbUc) := by
  rw [show carV = (⟨6, 2, 16, 99000, 10000, 0⟩ : Car) from rfl,
      sweepCar_eval_due (by decide) (by decide) (by decide)]
  decide

lemma checkU2 : check_all_cars_for_reminders defaultSettings dbUb 2 1000 =
    ([itemU6], dbUc, none) := by
  have hfilter : dbUb.cars.filter
      (fun c => c.shopId == 2 && decide (0 < c.serviceIntervalKm)) = [carV] := by decide
  simp only [check_all_cars_for_reminders, hfilter, sweepCars, sweepCar_dbU6]
  decide

lemma sendBadU : sendLoop sinkBad 1 1000 [itemU2, itemU4] dbUa [] =
    (dbUa, [], some "TwilioException") := by
  decide

lemma sendGoodU1 : sendLoop sinkGood 1 1000 [itemU2, itemU4] dbUa [] =
    (dbUb, [(1, 2, true), (1, 4, true)], none) := by
  decide

lemma sendGoodU2 : sendLoop sinkGood 2 1000 [itemU6] dbUc [(1, 2, true), (1, 4, true)] =
    (dbUd, [(1, 2, true), (1, 4, true), (2, 6, true)], none) := by
  decide

lemma shopLoopBadU : shopLoop defaultSettings sinkBad 1000 [⟨1, true, true⟩] dbU [] =
    (dbUa, [], some "TwilioException") := by
  simp only [shopLoop, checkU1, sendBadU]

lemma shopLoopGoodU :
    shopLoop defaultSettings sinkGood 1000 [⟨1, true, true⟩, ⟨2, true, true⟩] dbU [] =
    (dbUd, [(1, 2, true), (1, 4, true), (2, 6, true)], none) := by
  simp only [shopLoop, checkU1, sendGoodU1, checkU2, sendGoodU2]

lemma checkGoodFull : check_service_reminders defaultSettings sinkGood dbU 1000 =
    (dbUd, [(1, 2, true), (1, 4, true), (2, 6, true)]) := by
  have hf : dbU.shops.filter (fun sh => sh.isActive && sh.smsEnabled) =
      [⟨1, true, true⟩, ⟨2, true, true⟩] := by decide
  simp only [check_service_reminders, hf, shopLoopGoodU]

lemma checkBadFull : check_service_reminders defaultSettings sinkBad dbU 1000 =
    (dbUa, []) := by
  have hf : dbU.shops.filter (fun sh => sh.isActive && sh.smsEnabled) =
      [⟨1, true, true⟩, ⟨2, true, true⟩] := by decide
  have h2 := shopLoop_append [⟨2, true, true⟩] shopLoopBadU
  simp only [List.cons_append, List.nil_append] at h2
  simp only [check_service_reminders, hf, h2]

/-! ### Remaining helpers for the claim theorems -/

lemma calc_some_nonneg {s : Settings} {db : DB} {c : Nat} {rate : ℚ} {db' : DB}
    (h : calculate_average_km_per_day s db c = .ok (some rate, db')) : 0 ≤ rate := by
  simp only [calculate_average_km_per_day] at h
  split at h
  · exact absurd h (by simp)
  · split at h
    · exact absurd h (by simp)
    · split at h
      · exact absurd h (by simp)
      · split at h
        · exact absurd h (by simp)
        · split at h
          · exact absurd h (by simp)
          · split at h
            · exact absurd h (by simp)
            · injection h with h1
              injection h1 with h2 h3
              injection h2 with h4
              rw [← h4]
              exact le_max_left _ _

/-- The value of the `[0]`/`[-1]` indexing and the `ORDER BY` query on the
P3 vehicle: rate is exactly 100 km/day. -/
lemma calc_dbP : calculate_average_km_per_day defaultSettings dbP 1 =
    .ok (some 100, dbP) := by
  have hq : qualifyingWorkOrders dbP 1 =
      [⟨1, "done", some 70000, 0⟩, ⟨1, "done", some 80000, 8640000⟩] := by decide
  simp only [calculate_average_km_per_day, hq]
  norm_num [headE, lastE, optE, wholeDaysBetween, defaultSettings]
  rw [show Int.fdiv 8640000 86400 = (100 : ℤ) from by decide]
  push_cast
  norm_num [sup_eq_right]

lemma predict_dbP : predict_mileage defaultSettings dbP 1 14 =
    .ok (some 91400, dbP) := by
  simp only [predict_mileage,
    show dbP.findCar 1 = some ⟨1, 1, 11, 90000, 10000, 0⟩ from by decide, calc_dbP]
  rw [show ((100 : ℚ) * ((14 : ℤ) : ℚ)) = ((1400 : ℤ) : ℚ) from by push_cast; norm_num,
      ratTrunc_intCast]
  norm_num

lemma calc_dbR : calculate_average_km_per_day defaultSettings dbR 3 =
    .ok (some (3 / 2), dbR) := by
  have hq : qualifyingWorkOrders dbR 3 =
      [⟨3, "done", some 0, 0⟩, ⟨3, "done", some 3, 172800⟩] := by decide
  simp only [calculate_average_km_per_day, hq]
  norm_num [headE, lastE, optE, wholeDaysBetween, defaultSettings]
  rw [show Int.fdiv 172800 86400 = (2 : ℤ) from by decide]
  push_cast
  norm_num [sup_eq_right]

lemma predict_dbR : predict_mileage defaultSettings dbR 3 (-1) =
    .ok (some 99, dbR) := by
  simp only [predict_mileage,
    show dbR.findCar 3 = some ⟨3, 1, 13, 100, 10000, 0⟩ from by decide, calc_dbR]
  rw [show ((3 / 2 : ℚ) * ((-1 : ℤ) : ℚ)) = -(3 / 2) from by push_cast; ring,
      ratTrunc_eq_ceil (by norm_num),
      show ⌈-(3 / 2 : ℚ)⌉ = -1 from by
        rw [Int.ceil_eq_iff]
        constructor <;> norm_num]
  norm_num

lemma okUnchanged_of_ok {α : Type} [DecidableEq α] {r : Except String (α × DB)}
    {db : DB} {v : α} (h : r = .ok (v, db)) : okUnchanged r db = true := by
  rw [h, okUnchanged]
  simp

/-! ### The claims -/

/-- C1: for every vehicle, `calculate_average_km_per_day` returns
insufficient data (`none`) if there are fewer qualifying visits (completed
visits with a present odometer reading, ordered by timestamp) than the
configured minimum, or if the whole-day span between the earliest and latest
qualifying visit is zero; otherwise it returns
`max 0 ((latestOdometer − earliestOdometer) / dayDelta)` computed only from
the earliest and latest qualifying visits. The state is never touched. -/
theorem spec_C1_averageDailyDistance (s : Settings) (db : DB) (carId : Nat) :
    ((qualifyingWorkOrders db carId).length < s.MIN_VISITS_FOR_PREDICTION →
       calculate_average_km_per_day s db carId = .ok (none, db)) ∧
    (∀ wf wl mf ml,
       ¬ (qualifyingWorkOrders db carId).length < s.MIN_VISITS_FOR_PREDICTION →
       (qualifyingWorkOrders db carId).head? = some wf →
       (qualifyingWorkOrders db carId).getLast? = some wl →
       wf.mileageAtIntake = some mf → wl.mileageAtIntake = some ml →
       (wholeDaysBetween wf.createdAt wl.createdAt = 0 →
          calculate_average_km_per_day s db carId = .ok (none, db)) ∧
       (wholeDaysBetween wf.createdAt wl.createdAt ≠ 0 →
          calculate_average_km_per_day s db carId =
            .ok (some (max 0 (((ml - mf : ℤ) : ℚ) /
              ((wholeDaysBetween wf.createdAt wl.createdAt : ℤ) : ℚ))), db))) := by
  constructor
  · intro hlt
    simp only [calculate_average_km_per_day]
    rw [if_pos hlt]
  · intro wf wl mf ml hnlt hhead hlast hmf hml
    have hhE : headE (qualifyingWorkOrders db carId) = .ok wf := by
      rw [headE_eq_head?, hhead]
    have hlE : lastE (qualifyingWorkOrders db carId) = .ok wl := by
      rw [lastE_eq_getLast?, hlast]
    constructor
    · intro hz
      simp only [calculate_average_km_per_day, if_neg hnlt, hhE, hlE, hml, hmf, optE]
      rw [if_pos hz]
    · intro hnz
      simp only [calculate_average_km_per_day, if_neg hnlt, hhE, hlE, hml, hmf, optE]
      rw [if_neg hnz]

/-- C1 witness: on the P3 vehicle (visits at odometer 70000 and 80000, 100
days apart) the hypotheses hold and the rate is exactly 100 km/day. -/
theorem spec_C1_witness : calculate_average_km_per_day defaultSettings dbP 1 =
    .ok (some 100, dbP) := by
  have h := (spec_C1_averageDailyDistance defaultSettings dbP 1).2
    ⟨1, "done", some 70000, 0⟩ ⟨1, "done", some 80000, 8640000⟩ 70000 80000
    (by decide) (by decide) (by decide) rfl rfl
  rw [(h.2 (by decide))]
  rw [show wholeDaysBetween 0 8640000 = (100 : ℤ) from by decide]
  push_cast
  norm_num [sup_eq_right]

/-- C2: for every vehicle with a positive service interval,
`needs_service_reminder` returns `(false, none, none)` when the vehicle is
not found or the projection is `none`, and otherwise returns the threshold
`currentOdometer − currentOdometer mod interval + interval` together with
`due = (threshold ≤ predicted)`, the prediction being taken at the
configured horizon. -/
theorem spec_C2_isServiceDue (s : Settings) (db : DB) (carId : Nat) :
    (db.findCar carId = none →
       needs_service_reminder s db carId = .ok ((false, none, none), db)) ∧
    (∀ car, db.findCar carId = some car → 0 < car.serviceIntervalKm →
      (predict_mileage s db carId s.SERVICE_REMINDER_DAYS_AHEAD = .ok (none, db) →
        needs_service_reminder s db carId = .ok ((false, none, none), db)) ∧
      (∀ p, predict_mileage s db carId s.SERVICE_REMINDER_DAYS_AHEAD =
          .ok (some p, db) →
        needs_service_reminder s db carId =
          .ok ((decide (car.currentMileage - car.currentMileage % car.serviceIntervalKm
                  + car.serviceIntervalKm ≤ p),
                some p,
                some (car.currentMileage - car.currentMileage % car.serviceIntervalKm
                  + car.serviceIntervalKm)), db))) := by
  constructor
  · intro hnone
    simp only [needs_service_reminder, hnone]
  · intro car hfind hpos
    constructor
    · intro hpred
      simp only [needs_service_reminder, hfind, hpred]
    · intro p hpred
      simp only [needs_service_reminder, hfind, hpred, fmodE,
        if_neg (by omega : ¬ car.serviceIntervalKm = 0)]
      rw [Int.fmod_eq_emod _ (by omega)]

/-- C2 witness: the P3/P5 vehicle at odometer 90000 with interval 10000 —
predicted 91400, threshold 100000, not yet due. -/
theorem spec_C2_witness : needs_service_reminder defaultSettings dbP 1 =
    .ok ((false, some 91400, some 100000), dbP) := by
  have h := ((spec_C2_isServiceDue defaultSettings dbP 1).2
    ⟨1, 1, 11, 90000, 10000, 0⟩ (by decide) (by decide)).2 91400 predict_dbP
  rw [h]
  norm_num

/-- C3 counterexample: the code computes `int(rate * days_ahead)`, which
truncates toward zero; for the vehicle with rate 3/2 and `daysAhead = -1`
it returns odometer 100 + (−1) = 99, while
`currentOdometer + floor(rate × daysAhead)` is 100 + (−2) = 98. -/
theorem spec_C3_counterexample :
    calculate_average_km_per_day defaultSettings dbR 3 = .ok (some (3 / 2), dbR) ∧
    predict_mileage defaultSettings dbR 3 (-1) = .ok (some 99, dbR) ∧
    carR.currentMileage + ⌊(3 / 2 : ℚ) * ((-1 : Int) : ℚ)⌋ = 98 ∧
    (99 : Int) ≠ 98 := by
  refine ⟨calc_dbR, predict_dbR, ?_, by decide⟩
  rw [show ((3 / 2 : ℚ) * ((-1 : ℤ) : ℚ)) = -(3 / 2) from by push_cast; ring,
      show carR.currentMileage = 100 from rfl]
  norm_num

/-- C3 (amended): for every vehicle and every `daysAhead ≥ 0`,
`predict_mileage` returns `none` when the vehicle is not found or the rate is
unavailable, and otherwise `currentOdometer + floor(rate × daysAhead)` (for
nonnegative horizons the code's truncation toward zero agrees with floor,
because the rate is clamped to be nonnegative; for negative horizons the code
truncates instead of flooring, see the counterexample). -/
theorem spec_C3_projectOdometer (s : Settings) (db : DB) (carId : Nat) (d : Int)
    (hd : 0 ≤ d) :
    (db.findCar carId = none → predict_mileage s db carId d = .ok (none, db)) ∧
    (∀ car, db.findCar carId = some car →
      (calculate_average_km_per_day s db carId = .ok (none, db) →
        predict_mileage s db carId d = .ok (none, db)) ∧
      (∀ rate, calculate_average_km_per_day s db carId = .ok (some rate, db) →
        predict_mileage s db carId d =
          .ok (some (car.currentMileage + ⌊rate * (d : ℚ)⌋), db))) := by
  constructor
  · intro hnone
    simp only [predict_mileage, hnone]
  · intro car hfind
    constructor
    · intro hcalc
      simp only [predict_mileage, hfind, hcalc]
    · intro rate hcalc
      simp only [predict_mileage, hfind, hcalc]
      rw [ratTrunc_eq_floor
        (mul_nonneg (calc_some_nonneg hcalc) (by exact_mod_cast hd))]

/-- C3 witness: the P5 projection — rate 100, horizon 14 days, odometer
90000 → 91400. -/
theorem spec_C3_witness : predict_mileage defaultSettings dbP 1 14 =
    .ok (some 91400, dbP) := by
  have h := ((spec_C3_projectOdometer defaultSettings dbP 1 14 (by decide)).2
    ⟨1, 1, 11, 90000, 10000, 0⟩ (by decide)).2 100 calc_dbP
  rw [h]
  rw [show ((100 : ℚ) * ((14 : ℤ) : ℚ)) = ((1400 : ℤ) : ℚ) from by push_cast; norm_num]
  norm_num

lemma calc_total {s : Settings} (db : DB) (carId : Nat)
    (hmin : 1 ≤ s.MIN_VISITS_FOR_PREDICTION) :
    ∃ v, calculate_average_km_per_day s db carId = .ok (v, db) := by
  simp only [calculate_average_km_per_day]
  split
  · exact ⟨none, rfl⟩
  · rename_i hnlt
    cases hqs : qualifyingWorkOrders db carId with
    | nil =>
      rw [hqs] at hnlt
      simp at hnlt
      omega
    | cons a l =>
      have hane : a :: l ≠ [] := by simp
      have hlast : (a :: l).getLast? = some ((a :: l).getLast hane) :=
        List.getLast?_eq_getLast _ hane
      have hmemh : a ∈ qualifyingWorkOrders db carId := by
        rw [hqs]
        exact List.mem_cons_self a l
      have hmeml : (a :: l).getLast hane ∈ qualifyingWorkOrders db carId := by
        rw [hqs]
        exact List.getLast_mem hane
      obtain ⟨mf, hmf⟩ := Option.isSome_iff_exists.mp (qualifying_isSome hmemh)
      obtain ⟨ml, hml⟩ := Option.isSome_iff_exists.mp (qualifying_isSome hmeml)
      rw [headE_eq_head?, lastE_eq_getLast?, hlast]
      simp only [List.head?_cons, hmf, hml, optE]
      split
      · exact ⟨none, rfl⟩
      · exact ⟨_, rfl⟩

lemma predict_total {s : Settings} (db : DB) (carId : Nat) (d : Int)
    (hmin : 1 ≤ s.MIN_VISITS_FOR_PREDICTION) :
    ∃ v, predict_mileage s db carId d = .ok (v, db) := by
  simp only [predict_mileage]
  split
  · exact ⟨none, rfl⟩
  · obtain ⟨v, hv⟩ := calc_total db carId hmin
    rw [hv]
    cases v with
    | none => exact ⟨none, rfl⟩
    | some rate => exact ⟨_, rfl⟩

lemma needs_total {s : Settings} (db : DB) (carId : Nat)
    (hmin : 1 ≤ s.MIN_VISITS_FOR_PREDICTION)
    (hpos : ∀ car, db.findCar carId = some car → 0 < car.serviceIntervalKm) :
    ∃ v, needs_service_reminder s db carId = .ok (v, db) := by
  simp only [needs_service_reminder]
  split
  · exact ⟨_, rfl⟩
  · rename_i car hfind
    obtain ⟨v, hv⟩ := predict_total db carId s.SERVICE_REMINDER_DAYS_AHEAD hmin
    rw [hv]
    cases v with
    | none => exact ⟨_, rfl⟩
    | some p =>
      rw [fmodE, if_neg (by have := hpos car hfind; omega)]
      exact ⟨_, rfl⟩

/-- C8: for every vehicle whose service interval is positive (and a sane
configured minimum-visits bound), each of the three read operations
returns `.ok` with the database unchanged — they never raise (the divisions
by `days_diff` and by `service_interval_km` are unreachable with a zero
divisor) and never mutate; absence of data is reported only through
`none`. -/
theorem spec_C8_read_ops_pure (s : Settings) (db : DB) (carId : Nat)
    (hmin : 1 ≤ s.MIN_VISITS_FOR_PREDICTION)
    (hpos : ∀ car, db.findCar carId = some car → 0 < car.serviceIntervalKm) :
    okUnchanged (calculate_average_km_per_day s db carId) db = true ∧
    (∀ d, okUnchanged (predict_mileage s db carId d) db = true) ∧
    okUnchanged (needs_service_reminder s db carId) db = true := by
  refine ⟨?_, fun d => ?_, ?_⟩
  · obtain ⟨v, hv⟩ := calc_total db carId hmin
    exact okUnchanged_of_ok hv
  · obtain ⟨v, hv⟩ := predict_total db carId d hmin
    exact okUnchanged_of_ok hv
  · obtain ⟨v, hv⟩ := needs_total db carId hmin hpos
    exact okUnchanged_of_ok hv

/-- C8 witness: the three operations on the P3 vehicle succeed without
touching the state (horizon instantiated at 14). -/
theorem spec_C8_witness :
    okUnchanged (calculate_average_km_per_day defaultSettings dbP 1) dbP = true ∧
    okUnchanged (predict_mileage defaultSettings dbP 1 14) dbP = true ∧
    okUnchanged (needs_service_reminder defaultSettings dbP 1) dbP = true := by
  have h := spec_C8_read_ops_pure defaultSettings dbP 1 (by decide) (by decide)
  exact ⟨h.1, h.2.1 14, h.2.2⟩

/-- C4: starting from any state in which every vehicle has at most one
unsent reminder record, any number of sweeps (including aborted ones) and
`mark_reminder_sent` calls preserves that invariant; and if a vehicle is
flagged due by a sweep whose sink fails (no record is marked sent) and the
shop is swept again, exactly one unsent record exists for that vehicle. -/
theorem spec_C4_at_most_one_unsent (s : Settings) (db db' : DB)
    (hsteps : Relation.ReflTransGen (Step s) db db')
    (hinv : ∀ c, listUnsent db.reminders c ≤ 1) :
    (∀ c, listUnsent db'.reminders c ≤ 1) ∧
    (∀ shopId now now2 items1 db1 e1 items2 db2 e2 c,
      check_all_cars_for_reminders s db' shopId now = (items1, db1, e1) →
      (∃ it ∈ items1, it.carId = c) →
      check_all_cars_for_reminders s db1 shopId now2 = (items2, db2, e2) →
      listUnsent db2.reminders c = 1) := by
  have part1 : ∀ c, listUnsent db'.reminders c ≤ 1 := by
    induction hsteps with
    | refl => exact hinv
    | tail hpre hstep ih =>
      intro c
      cases hstep with
      | sweep shopId now items err h =>
        have hb := check_all_count_bounds h c
        have := ih c
        omega
      | mark reminderId now =>
        exact le_trans (markSentRows_count reminderId now c _) (ih c)
  refine ⟨part1, ?_⟩
  intro shopId now now2 items1 db1 e1 items2 db2 e2 c h1 hex h2
  obtain ⟨it, hit, hc⟩ := hex
  subst hc
  have hlow1 : 1 ≤ listUnsent db1.reminders it.carId := check_all_items_one h1 it hit
  have hup1 := (check_all_count_bounds h1 it.carId).2
  have hinv' := part1 it.carId
  have heq1 : listUnsent db1.reminders it.carId = 1 := by omega
  have hb2 := check_all_count_bounds h2 it.carId
  omega

/-- C4 witness: from the empty-reminder state `dbQ`, the due vehicle 2 is
flagged on the first sweep, the sink never confirms, and after the second
sweep exactly one unsent record exists for it. -/
theorem spec_C4_witness : listUnsent dbQ1.reminders 2 = 1 := by
  have h := spec_C4_at_most_one_unsent defaultSettings dbQ dbQ
    Relation.ReflTransGen.refl
    (by intro c; rw [show dbQ.reminders = [] from rfl]; simp [listUnsent])
  exact h.2 1 1000 1000 [itemQ] dbQ1 none [itemQ] dbQ1 none 2 checkQ1
    ⟨itemQ, by simp, rfl⟩ checkQ2

/-- C5: if a reminder for a vehicle was sent within the suppression window
(30 days) of the evaluation time, a sweep emits no item for that vehicle —
the vehicle is skipped before evaluation, so no second notification can be
produced while the window lasts (regardless of whether new visits exist). -/
theorem spec_C5_suppression (s : Settings) (db : DB) (shopId : Nat) (now : Int)
    (c : Nat) (r : ServiceReminder) (hr : r ∈ db.reminders) (hcar : r.carId = c)
    (hsent : r.reminderSent = true) (t : Int) (ht : r.reminderSentAt = some t)
    (hwin : now - suppressionWindow ≤ t) :
    ∀ items db' err,
      check_all_cars_for_reminders s db shopId now = (items, db', err) →
      (items.all fun it => it.carId != c) = true := by
  have hpred : recentSentFor now c r = true := by
    simp [recentSentFor, hcar, hsent, ht, hwin]
  intro items db' err h
  rw [List.all_eq_true]
  intro it hit
  rcases (sweepCars_recent_no_item hpred hr h).2 it hit with habs | hne
  · exact absurd habs (by simp)
  · simpa using hne

/-- C5 witness: vehicle 2 of `dbS` was notified at time 900; the sweep at
time 1000 emits no item for it. -/
theorem spec_C5_witness :
    ((check_all_cars_for_reminders defaultSettings dbS 1 1000).1.all
      fun it => it.carId != 2) = true := by
  have h := spec_C5_suppression defaultSettings dbS 1 1000 2 sentReminderS
    (by decide) rfl rfl 900 rfl (by decide) [] dbS none checkS
  rw [checkS]
  exact h

/-- C6 counterexample: vehicle 2 of `dbT` is flagged due with newly computed
predicted mileage 113000, an unsent record with stored predicted mileage
12345 exists, and the sweep leaves the store (hence that record's fields)
completely unchanged — it does not update the differing fields as the claim
requires. -/
theorem spec_C6_counterexample :
    check_all_cars_for_reminders defaultSettings dbT 1 1000 = ([itemT], dbT, none) ∧
    staleReminderT ∈ dbT.reminders ∧
    staleReminderT.reminderSent = false ∧
    itemT.reminderId = staleReminderT.id ∧
    itemT.predictedMileage = some 113000 ∧
    staleReminderT.predictedMileage = 12345 ∧
    (113000 : Int) ≠ 12345 :=
  ⟨checkT, by decide, rfl, rfl, rfl, rfl, by decide⟩

/-- C6 (amended): when a vehicle with an existing unsent reminder record is
swept (under the per-vehicle uniqueness invariant), the record is reused
as-is: it is still present afterwards with all its fields unchanged, no
second unsent record is created for the vehicle, and every item the sweep
emits for the vehicle carries the existing record's id (the stored
predicted/threshold fields are not updated even when the newly computed
values differ). -/
theorem spec_C6_reuse_unchanged (s : Settings) (db : DB) (shopId : Nat)
    (now : Int) (c : Nat) (r : ServiceReminder)
    (hinv : ∀ c', listUnsent db.reminders c' ≤ 1)
    (hr : r ∈ db.reminders) (hcar : r.carId = c) (hunsent : r.reminderSent = false) :
    ∀ items db' err,
      check_all_cars_for_reminders s db shopId now = (items, db', err) →
      r ∈ db'.reminders ∧
      listUnsent db'.reminders c = listUnsent db.reminders c ∧
      (items.all fun it => it.carId != c || it.reminderId == r.id) = true := by
  intro items db' err h
  have hmemf : r ∈ db.reminders.filter (unsentFor c) :=
    List.mem_filter.mpr ⟨hr, by simp [unsentFor, hcar, hunsent]⟩
  have hf : db.reminders.filter (unsentFor c) = [r] := by
    have hlen : (db.reminders.filter (unsentFor c)).length ≤ 1 := hinv c
    cases hfc : db.reminders.filter (unsentFor c) with
    | nil =>
      rw [hfc] at hmemf
      exact absurd hmemf (by simp)
    | cons x l =>
      cases l with
      | nil =>
        rw [hfc] at hmemf
        simp at hmemf
        rw [hmemf]
      | cons y m =>
        rw [hfc] at hlen
        simp at hlen
  obtain ⟨hf', hitems⟩ := sweepCars_filter_fixed hf h
  refine ⟨?_, ?_, ?_⟩
  · exact List.mem_of_mem_filter (hf' ▸ List.mem_singleton_self r)
  · simp [listUnsent, hf, hf']
  · rw [List.all_eq_true]
    intro it hit
    rcases hitems it hit with habs | hne | hid
    · exact absurd habs (by simp)
    · simp [hne]
    · simp [hid]

/-- C6 witness: on `dbT` the stale unsent record (id 7) is reused unchanged
and the emitted item references id 7. -/
theorem spec_C6_witness :
    staleReminderT ∈ dbT.reminders ∧
    listUnsent dbT.reminders 2 = listUnsent dbT.reminders 2 ∧
    ([itemT].all fun it => it.carId != 2 || it.reminderId == staleReminderT.id) =
      true := by
  have h := spec_C6_reuse_unchanged defaultSettings dbT 1 1000 2 staleReminderT
    (by intro c'; rw [show dbT.reminders = [staleReminderT] from rfl]
        simp only [listUnsent, List.filter]
        split <;> simp)
    (by decide) rfl rfl [itemT] dbT none checkT
  exact h

/-- C7 counterexample: with every vehicle due (as the all-success run shows:
cars 2 and 4 of shop 1 and car 6 of shop 2 are all notified when the sink
succeeds), a sink that raises on car 2 aborts the whole job: neither car 4
(same tenant) nor car 6 (other tenant) is notified — errors are not caught
at the per-vehicle or per-tenant loop boundary. -/
theorem spec_C7_counterexample :
    (check_service_reminders defaultSettings sinkBad dbU 1000).2 = [] ∧
    (1, 4, true) ∈ (check_service_reminders defaultSettings sinkGood dbU 1000).2 ∧
    (2, 6, true) ∈ (check_service_reminders defaultSettings sinkGood dbU 1000).2 := by
  refine ⟨by rw [checkBadFull], ?_, ?_⟩
  · rw [checkGoodFull]
    simp
  · rw [checkGoodFull]
    simp

/-- C7 (amended): every error raised while processing a vehicle or a tenant
is caught only at the single job-level `try/except` of
`check_service_reminders`: an uncaught exception in one tenant's processing
aborts the evaluation and notification of all remaining tenants of that run
(and an exception on one item aborts the remaining items), the partial state
and log are kept, and the exception never propagates out of the job. -/
theorem spec_C7_error_boundary (s : Settings) (sink : Sink) (now : Int)
    (db : DB) (l1 l2 : List Shop) (db1 : DB) (log1 : List (Nat × Nat × Bool))
    (e : String) (h : shopLoop s sink now l1 db [] = (db1, log1, some e)) :
    shopLoop s sink now (l1 ++ l2) db [] = (db1, log1, some e) ∧
    (db.shops.filter (fun sh => sh.isActive && sh.smsEnabled) = l1 ++ l2 →
      check_service_reminders s sink db now = (db1, log1)) ∧
    (∀ shopId i1 i2 db0 log0 db2 log2 e2,
      sendLoop sink shopId now i1 db0 log0 = (db2, log2, some e2) →
      sendLoop sink shopId now (i1 ++ i2) db0 log0 = (db2, log2, some e2)) := by
  have h1 := shopLoop_append l2 h
  refine ⟨h1, ?_, ?_⟩
  · intro hf
    rw [check_service_reminders, hf, h1]
  · intro shopId i1 i2 db0 log0 db2 log2 e2 hs
    exact sendLoop_append i2 hs

/-- C7 witness: on `dbU` with the raising sink, processing of shop 1 ends in
the uncaught exception; appending shop 2 changes nothing and the job
swallows the exception, returning the partial state with an empty log. -/
theorem spec_C7_witness :
    shopLoop defaultSettings sinkBad 1000 [⟨1, true, true⟩, ⟨2, true, true⟩] dbU [] =
      (dbUa, [], some "TwilioException") ∧
    check_service_reminders defaultSettings sinkBad dbU 1000 = (dbUa, []) := by
  have h := spec_C7_error_boundary defaultSettings sinkBad 1000 dbU
    [⟨1, true, true⟩] [⟨2, true, true⟩] dbUa [] "TwilioException" shopLoopBadU
  exact ⟨h.1, h.2.1 (by decide)⟩

/-- C9: `update_car_mileage` changes each car row only by raising the first
matching row's mileage to a strictly greater reported value (never lowering
it), touches no other table, and is a no-op when the vehicle is missing or
the reported value is not strictly greater than the stored one. -/
theorem spec_C9_mileage_monotone (db : DB) (carId : Nat) (m now : Int) :
    List.Forall₂ (fun c c' =>
      (c.id = carId ∧ c.currentMileage < m ∧
        c' = { c with currentMileage := m, updatedAt := now }) ∨ c' = c)
      db.cars (update_car_mileage db carId m now).cars ∧
    (update_car_mileage db carId m now).shops = db.shops ∧
    (update_car_mileage db carId m now).workOrders = db.workOrders ∧
    (update_car_mileage db carId m now).reminders = db.reminders ∧
    (update_car_mileage db carId m now).nextReminderId = db.nextReminderId ∧
    (db.findCar carId = none → update_car_mileage db carId m now = db) ∧
    (∀ car, db.findCar carId = some car → ¬ car.currentMileage < m →
      update_car_mileage db carId m now = db) := by
  refine ⟨updateMileageRows_forall₂ carId m now db.cars, rfl, rfl, rfl, rfl, ?_, ?_⟩
  · intro hnone
    have hne : ∀ c ∈ db.cars, c.id ≠ carId := by
      intro c hc
      have := List.find?_eq_none.mp hnone c hc
      simpa using this
    rw [update_car_mileage, updateMileageRows_not_found hne]
  · intro car hfind hge
    rw [update_car_mileage, updateMileageRows_found_ge hfind hge]

/-- C9 witness: reporting mileage 50 for vehicle 1 of `dbP` (stored 90000)
leaves the database unchanged. -/
theorem spec_C9_witness : update_car_mileage dbP 1 50 77 = dbP :=
  (spec_C9_mileage_monotone dbP 1 50 77).2.2.2.2.2.2
    ⟨1, 1, 11, 90000, 10000, 0⟩ (by decide) (by decide)

/-- C10: `mark_reminder_sent` is a no-op when no record has the given id;
otherwise each record either receives exactly the sent flag and sent
timestamp update or is left unchanged, and no other table or counter is
touched. -/
theorem spec_C10_mark_sent_frame (db : DB) (reminderId : Nat) (now : Int) :
    ((∀ r ∈ db.reminders, r.id ≠ reminderId) →
      mark_reminder_sent db reminderId now = db) ∧
    List.Forall₂ (fun r r' =>
      (r.id = reminderId ∧
        r' = { r with reminderSent := true, reminderSentAt := some now }) ∨ r' = r)
      db.reminders (mark_reminder_sent db reminderId now).reminders ∧
    (mark_reminder_sent db reminderId now).shops = db.shops ∧
    (mark_reminder_sent db reminderId now).cars = db.cars ∧
    (mark_reminder_sent db reminderId now).workOrders = db.workOrders ∧
    (mark_reminder_sent db reminderId now).nextReminderId = db.nextReminderId := by
  refine ⟨?_, markSentRows_forall₂ reminderId now db.reminders, rfl, rfl, rfl, rfl⟩
  intro hne
  rw [mark_reminder_sent, markSentRows_not_found hne]

/-- C10 witness: marking the nonexistent reminder id 5 on `dbT` leaves the
database unchanged. -/
theorem spec_C10_witness : mark_reminder_sent dbT 5 1000 = dbT :=
  (spec_C10_mark_sent_frame dbT 5 1000).1 (by decide)

end AutoShop
